import Mathlib

/-!
Verification of the agent-orchestration dispatch engine (src/main.py).

The Python source is shallowly embedded: Python dictionaries and JSON values
become the inductive type `Json`; each agent method becomes a Lean function
over that type; the external completion service (the oracle) is a function
parameter; raised exceptions become `Except PyErr`; the number of oracle
calls made by a provider invocation is returned explicitly as a `Nat`.
-/

/-- JSON values, also used to model Python dictionaries, lists, strings,
numbers, booleans and `None` as they flow through `src/main.py`.
`fnum` stores the literal text of a fractional or exponent number produced by
the JSON reader (its numeric value is never consumed by the program under
verification); `nan` and `infinity` mirror the non-finite constants that the
Python `json` module accepts. Objects are association lists in insertion
order with unique keys, matching Python dict semantics. -/
inductive Json where
  | null : Json
  | bool (b : Bool) : Json
  | num (n : Int) : Json
  | fnum (lit : String) : Json
  | nan : Json
  | infinity (neg : Bool) : Json
  | str (s : String) : Json
  | arr (xs : List Json) : Json
  | obj (kvs : List (String × Json)) : Json
deriving Inhabited

mutual

/-- Decidable equality for `Json` (the `deriving` handler does not support
this nested inductive, so the instance is spelled out). -/
def jsonDecEq : (a b : Json) → Decidable (a = b)
  | Json.null, Json.null => isTrue rfl
  | Json.nan, Json.nan => isTrue rfl
  | Json.bool x, Json.bool y =>
    match decEq x y with
    | isTrue h => isTrue (h ▸ rfl)
    | isFalse h => isFalse (fun he => by cases he; exact h rfl)
  | Json.num x, Json.num y =>
    match decEq x y with
    | isTrue h => isTrue (h ▸ rfl)
    | isFalse h => isFalse (fun he => by cases he; exact h rfl)
  | Json.fnum x, Json.fnum y =>
    match decEq x y with
    | isTrue h => isTrue (h ▸ rfl)
    | isFalse h => isFalse (fun he => by cases he; exact h rfl)
  | Json.infinity x, Json.infinity y =>
    match decEq x y with
    | isTrue h => isTrue (h ▸ rfl)
    | isFalse h => isFalse (fun he => by cases he; exact h rfl)
  | Json.str x, Json.str y =>
    match decEq x y with
    | isTrue h => isTrue (h ▸ rfl)
    | isFalse h => isFalse (fun he => by cases he; exact h rfl)
  | Json.arr xs, Json.arr ys =>
    match jsonListDecEq xs ys with
    | isTrue h => isTrue (h ▸ rfl)
    | isFalse h => isFalse (fun he => by cases he; exact h rfl)
  | Json.obj xs, Json.obj ys =>
    match jsonKVListDecEq xs ys with
    | isTrue h => isTrue (h ▸ rfl)
    | isFalse h => isFalse (fun he => by cases he; exact h rfl)
  | Json.null, Json.bool _ | Json.null, Json.num _ | Json.null, Json.fnum _
  | Json.null, Json.nan | Json.null, Json.infinity _ | Json.null, Json.str _
  | Json.null, Json.arr _ | Json.null, Json.obj _
  | Json.bool _, Json.null | Json.bool _, Json.num _ | Json.bool _, Json.fnum _
  | Json.bool _, Json.nan | Json.bool _, Json.infinity _ | Json.bool _, Json.str _
  | Json.bool _, Json.arr _ | Json.bool _, Json.obj _
  | Json.num _, Json.null | Json.num _, Json.bool _ | Json.num _, Json.fnum _
  | Json.num _, Json.nan | Json.num _, Json.infinity _ | Json.num _, Json.str _
  | Json.num _, Json.arr _ | Json.num _, Json.obj _
  | Json.fnum _, Json.null | Json.fnum _, Json.bool _ | Json.fnum _, Json.num _
  | Json.fnum _, Json.nan | Json.fnum _, Json.infinity _ | Json.fnum _, Json.str _
  | Json.fnum _, Json.arr _ | Json.fnum _, Json.obj _
  | Json.nan, Json.null | Json.nan, Json.bool _ | Json.nan, Json.num _
  | Json.nan, Json.fnum _ | Json.nan, Json.infinity _ | Json.nan, Json.str _
  | Json.nan, Json.arr _ | Json.nan, Json.obj _
  | Json.infinity _, Json.null | Json.infinity _, Json.bool _ | Json.infinity _, Json.num _
  | Json.infinity _, Json.fnum _ | Json.infinity _, Json.nan | Json.infinity _, Json.str _
  | Json.infinity _, Json.arr _ | Json.infinity _, Json.obj _
  | Json.str _, Json.null | Json.str _, Json.bool _ | Json.str _, Json.num _
  | Json.str _, Json.fnum _ | Json.str _, Json.nan | Json.str _, Json.infinity _
  | Json.str _, Json.arr _ | Json.str _, Json.obj _
  | Json.arr _, Json.null | Json.arr _, Json.bool _ | Json.arr _, Json.num _
  | Json.arr _, Json.fnum _ | Json.arr _, Json.nan | Json.arr _, Json.infinity _
  | Json.arr _, Json.str _ | Json.arr _, Json.obj _
  | Json.obj _, Json.null | Json.obj _, Json.bool _ | Json.obj _, Json.num _
  | Json.obj _, Json.fnum _ | Json.obj _, Json.nan | Json.obj _, Json.infinity _
  | Json.obj _, Json.str _ | Json.obj _, Json.arr _ =>
    isFalse (fun he => Json.noConfusion he)

/-- Decidable equality for lists of `Json`. -/
def jsonListDecEq : (a b : List Json) → Decidable (a = b)
  | [], [] => isTrue rfl
  | [], _ :: _ => isFalse (fun he => List.noConfusion he)
  | _ :: _, [] => isFalse (fun he => List.noConfusion he)
  | x :: xs, y :: ys =>
    match jsonDecEq x y with
    | isFalse h => isFalse (fun he => by cases he; exact h rfl)
    | isTrue h1 =>
      match jsonListDecEq xs ys with
      | isTrue h2 => isTrue (h1 ▸ h2 ▸ rfl)
      | isFalse h => isFalse (fun he => by cases he; exact h rfl)

/-- Decidable equality for key-value lists of `Json`. -/
def jsonKVListDecEq : (a b : List (String × Json)) → Decidable (a = b)
  | [], [] => isTrue rfl
  | [], _ :: _ => isFalse (fun he => List.noConfusion he)
  | _ :: _, [] => isFalse (fun he => List.noConfusion he)
  | (k1, v1) :: xs, (k2, v2) :: ys =>
    match decEq k1 k2 with
    | isFalse h => isFalse (fun he => by cases he; exact h rfl)
    | isTrue hk =>
      match jsonDecEq v1 v2 with
      | isFalse h => isFalse (fun he => by cases he; exact h rfl)
      | isTrue hv =>
        match jsonKVListDecEq xs ys with
        | isTrue ht => isTrue (hk ▸ hv ▸ ht ▸ rfl)
        | isFalse h => isFalse (fun he => by cases he; exact h rfl)

end

instance : DecidableEq Json := jsonDecEq

/-- Python exceptions that the embedded code can raise: `attributeError`
models calling `.get` on a value that is not a dict, `typeError` models
slicing or iterating with an unsupported type, `oracleError` models a failure
of the external completion service (the uncaught exception raised by the
client call). -/
inductive PyErr where
  | attributeError : PyErr
  | typeError : PyErr
  | oracleError : PyErr
deriving DecidableEq, Inhabited

/-- A single quote character, used when rendering Python list reprs. -/
def pyQuote : String := (Char.ofNat 39).toString

/-- Whitespace for Python `str.strip()`: space, tab, newline, carriage
return, vertical tab, form feed. -/
def isPySpace (c : Char) : Bool :=
  c = ' ' || c = Char.ofNat 9 || c = Char.ofNat 10 || c = Char.ofNat 13 ||
  c = Char.ofNat 11 || c = Char.ofNat 12

/-- Drop trailing Python whitespace from a character list. -/
def dropRightWs (cs : List Char) : List Char :=
  (cs.reverse.dropWhile isPySpace).reverse

/-- Python `str.strip()` on a character list: drop leading then trailing
whitespace. -/
def pyStripChars (cs : List Char) : List Char :=
  dropRightWs (cs.dropWhile isPySpace)

/-- Python `str.strip()`. -/
def pyStrip (s : String) : String :=
  String.mk (pyStripChars s.data)

/-- Python `str.split(sep)` for a one-character separator, on character
lists: splits at every occurrence of the separator and keeps empty
fragments, so the result always has one more fragment than there are
separators. -/
def pySplitChars (sep : Char) : List Char → List (List Char)
  | [] => [[]]
  | c :: cs =>
    if c = sep then [] :: pySplitChars sep cs
    else
      match pySplitChars sep cs with
      | [] => [[c]]
      | f :: rest => (c :: f) :: rest

/-- Python `str.split(sep)` for a one-character separator. -/
def pySplit (sep : Char) (s : String) : List String :=
  (pySplitChars sep s.data).map (fun cs => String.mk cs)

/-- First-match lookup in an association list modelling a Python dict
(the dicts built by this program have unique keys). -/
def assocFind (kvs : List (String × Json)) (k : String) : Option Json :=
  match kvs with
  | [] => none
  | (k2, v) :: rest => if k2 = k then some v else assocFind rest k

/-- Python truthiness of a value, as used by `if not text:` checks.
Float literals are approximated as truthy; no property proved here feeds a
float into a truthiness test. -/
def pyTruthy : Json → Bool
  | Json.null => false
  | Json.bool b => b
  | Json.num n => decide (n ≠ 0)
  | Json.fnum _ => true
  | Json.nan => true
  | Json.infinity _ => true
  | Json.str s => !s.isEmpty
  | Json.arr xs => !xs.isEmpty
  | Json.obj kvs => !kvs.isEmpty

/-- Model of `d.get(k)` on a value known to be a dict, returning `none` when the key
is absent; raises `attributeError` when the value is not a dict. -/
def pyGetOpt (j : Json) (k : String) : Except PyErr (Option Json) :=
  match j with
  | Json.obj kvs => Except.ok (assocFind kvs k)
  | _ => Except.error PyErr.attributeError

/-- Model of `d.get(k, default)`: as `pyGetOpt` but substituting a default for an
absent key. -/
def pyGetD (j : Json) (k : String) (d : Json) : Except PyErr Json :=
  match pyGetOpt j k with
  | Except.error e => Except.error e
  | Except.ok none => Except.ok d
  | Except.ok (some v) => Except.ok v

/-- Python iteration: lists yield their elements, strings their characters,
dicts their keys; other values raise `typeError`. -/
def pyIter : Json → Except PyErr (List Json)
  | Json.arr xs => Except.ok xs
  | Json.str s => Except.ok (s.data.map (fun c => Json.str (String.mk [c])))
  | Json.obj kvs => Except.ok (kvs.map (fun kv => Json.str kv.1))
  | _ => Except.error PyErr.typeError

mutual

/-- Python `repr` of a value, used by f-string interpolation of containers.
The rendering of strings nested in containers is approximated (no escaping
of special characters inside the quotes); every prompt proved about below
interpolates scalars only. -/
def pyRepr : Json → String
  | Json.null => "None"
  | Json.bool b => if b then "True" else "False"
  | Json.num n => toString n
  | Json.fnum lit => lit
  | Json.nan => "nan"
  | Json.infinity neg => if neg then "-inf" else "inf"
  | Json.str s => pyQuote ++ s ++ pyQuote
  | Json.arr xs => "[" ++ pyReprList xs ++ "]"
  | Json.obj kvs => "\x7b" ++ pyReprObj kvs ++ "\x7d"

/-- Comma-separated reprs of list elements. -/
def pyReprList : List Json → String
  | [] => ""
  | [x] => pyRepr x
  | x :: y :: xs => pyRepr x ++ ", " ++ pyReprList (y :: xs)

/-- Comma-separated reprs of dict entries. -/
def pyReprObj : List (String × Json) → String
  | [] => ""
  | [(k, v)] => pyQuote ++ k ++ pyQuote ++ ": " ++ pyRepr v
  | (k, v) :: kv2 :: kvs =>
    pyQuote ++ k ++ pyQuote ++ ": " ++ pyRepr v ++ ", " ++ pyReprObj (kv2 :: kvs)

end

/-- Python `str()` of a value, as produced by f-string interpolation. -/
def pyStr : Json → String
  | Json.str s => s
  | v => pyRepr v

/-- Python `str()` of an optional value, where an absent value is `None`. -/
def pyStrOpt : Option Json → String
  | none => "None"
  | some v => pyStr v

/-- Escaping of one character for the JSON serializer. Control characters
other than newline, tab and carriage return are left unescaped; no string
serialized in what follows contains them. -/
def jsonEscapeChar (c : Char) : String :=
  if c = '"' then "\\\""
  else if c = '\\' then "\\\\"
  else if c = Char.ofNat 10 then "\\n"
  else if c = Char.ofNat 9 then "\\t"
  else if c = Char.ofNat 13 then "\\r"
  else c.toString

/-- String escaping for the JSON serializer. -/
def jsonEscape (s : String) : String :=
  String.join (s.data.map jsonEscapeChar)

/-- A run of `n` spaces, for the indented JSON serializer. -/
def indentSpaces (n : Nat) : String :=
  String.mk (List.replicate n ' ')

mutual

/-- Model of `json.dumps(v, ensure_ascii=False, indent=2)` at indentation
level `ind`: the serialization the final formatter embeds in its prompt. -/
def jsonDumps (ind : Nat) : Json → String
  | Json.null => "null"
  | Json.bool b => if b then "true" else "false"
  | Json.num n => toString n
  | Json.fnum lit => lit
  | Json.nan => "NaN"
  | Json.infinity neg => if neg then "-Infinity" else "Infinity"
  | Json.str s => "\"" ++ jsonEscape s ++ "\""
  | Json.arr [] => "[]"
  | Json.arr (x :: xs) =>
    "[\n" ++ jsonDumpsElems (ind + 2) x xs ++ "\n" ++ indentSpaces ind ++ "]"
  | Json.obj [] => "\x7b\x7d"
  | Json.obj ((k, v) :: kvs) =>
    "\x7b\n" ++ jsonDumpsMembers (ind + 2) k v kvs ++ "\n" ++ indentSpaces ind ++ "\x7d"
termination_by j => sizeOf j
decreasing_by
  all_goals simp_wf
  all_goals omega

/-- Serialized array elements, one per line. -/
def jsonDumpsElems (ind : Nat) (x : Json) : List Json → String
  | [] => indentSpaces ind ++ jsonDumps ind x
  | y :: ys => indentSpaces ind ++ jsonDumps ind x ++ ",\n" ++ jsonDumpsElems ind y ys
termination_by l => sizeOf x + sizeOf l
decreasing_by
  all_goals simp_wf
  all_goals omega

/-- Serialized object members, one per line. -/
def jsonDumpsMembers (ind : Nat) (k : String) (v : Json) : List (String × Json) → String
  | [] => indentSpaces ind ++ "\"" ++ jsonEscape k ++ "\": " ++ jsonDumps ind v
  | (k2, v2) :: kvs =>
    indentSpaces ind ++ "\"" ++ jsonEscape k ++ "\": " ++ jsonDumps ind v ++ ",\n" ++
      jsonDumpsMembers ind k2 v2 kvs
termination_by l => sizeOf v + sizeOf l
decreasing_by
  all_goals simp_wf
  all_goals omega

end

/-- Whitespace accepted between tokens by the JSON grammar. -/
def isJsonWs (c : Char) : Bool :=
  c = ' ' || c = Char.ofNat 9 || c = Char.ofNat 10 || c = Char.ofNat 13

/-- Skip JSON whitespace. -/
def skipJsonWs (cs : List Char) : List Char :=
  cs.dropWhile isJsonWs

/-- Value of a hexadecimal digit. -/
def hexVal (c : Char) : Option Nat :=
  if '0' ≤ c ∧ c ≤ '9' then some (c.toNat - 48)
  else if Char.ofNat 97 ≤ c ∧ c ≤ 'f' then some (c.toNat - 87)
  else if 'A' ≤ c ∧ c ≤ 'F' then some (c.toNat - 55)
  else none

/-- Body of a JSON string literal, after the opening quote: returns the
decoded characters and the input remaining after the closing quote. Raw
control characters are rejected as in the strict mode of the Python reader;
a `\u` escape becomes a single character (surrogate pairs are approximated
as two characters). -/
def parseJsonStringBody : Nat → List Char → Option (List Char × List Char)
  | 0, _ => none
  | _ + 1, [] => none
  | fuel + 1, c :: cs =>
    if c = '"' then some ([], cs)
    else if c = '\\' then
      match cs with
      | [] => none
      | e :: cs2 =>
        let esc : Option (Char × List Char) :=
          if e = '"' then some ('"', cs2)
          else if e = '\\' then some ('\\', cs2)
          else if e = '/' then some ('/', cs2)
          else if e = 'b' then some (Char.ofNat 8, cs2)
          else if e = 'f' then some (Char.ofNat 12, cs2)
          else if e = 'n' then some (Char.ofNat 10, cs2)
          else if e = 'r' then some (Char.ofNat 13, cs2)
          else if e = 't' then some (Char.ofNat 9, cs2)
          else if e = 'u' then
            match cs2 with
            | h1 :: h2 :: h3 :: h4 :: cs3 =>
              match hexVal h1, hexVal h2, hexVal h3, hexVal h4 with
              | some a, some b, some c2, some d =>
                some (Char.ofNat (((a * 16 + b) * 16 + c2) * 16 + d), cs3)
              | _, _, _, _ => none
            | _ => none
          else none
        match esc with
        | none => none
        | some (ch, rest) =>
          match parseJsonStringBody fuel rest with
          | none => none
          | some (content, rest2) => some (ch :: content, rest2)
    else if c.toNat < 32 then none
    else
      match parseJsonStringBody fuel cs with
      | none => none
      | some (content, rest) => some (c :: content, rest)

/-- Digits of a decimal literal as a natural number. -/
def digitsToNat (ds : List Char) : Nat :=
  ds.foldl (fun acc c => acc * 10 + (c.toNat - 48)) 0

/-- A JSON number starting at the given input. Integer literals become
`Json.num`; literals with a fraction or exponent part are kept as their
text in `Json.fnum` (their numeric value is never consumed). A malformed
tail such as a dot without digits rejects the value here, where the Python
reader would stop the number before the tail and then reject the tail as an
unexpected token; both behaviors reject the same documents. -/
def parseJsonNumber (cs : List Char) : Option (Json × List Char) :=
  let sign : Bool × List Char :=
    match cs with
    | c :: r => if c = '-' then (true, r) else (false, cs)
    | [] => (false, cs)
  let neg := sign.1
  let cs1 := sign.2
  let intDigits := cs1.takeWhile Char.isDigit
  let rest1 := cs1.dropWhile Char.isDigit
  if intDigits = [] then none
  else if intDigits.length > 1 && intDigits.headD '0' = '0' then none
  else
    let fracPart : List Char × List Char × Bool :=
      match rest1 with
      | c :: r =>
        if c = Char.ofNat 46 then (r.takeWhile Char.isDigit, r.dropWhile Char.isDigit, true)
        else ([], rest1, false)
      | [] => ([], rest1, false)
    let fracDigits := fracPart.1
    let rest2 := fracPart.2.1
    let hasFrac := fracPart.2.2
    if hasFrac && fracDigits = [] then none
    else
      let expPart : List Char × List Char × Bool :=
        match rest2 with
        | e :: r =>
          if e = 'e' || e = 'E' then
            let signPart : List Char × List Char :=
              match r with
              | s :: r2 => if s = '+' || s = '-' then ([s], r2) else ([], r)
              | [] => ([], r)
            let ed := signPart.2.takeWhile Char.isDigit
            (e :: (signPart.1 ++ ed), signPart.2.dropWhile Char.isDigit, !ed.isEmpty)
          else ([], rest2, false)
        | [] => ([], rest2, false)
      let hasExp := expPart.2.2
      if hasExp || hasFrac then
        if hasExp then
          some (Json.fnum (String.mk ((if neg then [Char.ofNat 45] else []) ++ intDigits ++
            (if hasFrac then Char.ofNat 46 :: fracDigits else []) ++ expPart.1)), expPart.2.1)
        else
          some (Json.fnum (String.mk ((if neg then [Char.ofNat 45] else []) ++ intDigits ++
            Char.ofNat 46 :: fracDigits)), rest2)
      else
        some (Json.num (if neg then -(digitsToNat intDigits : Int) else (digitsToNat intDigits : Int)),
          rest1)

/-- Insertion into a Python dict held as an association list: an existing
key keeps its position and gets the new value, a new key is appended. -/
def pyObjInsert : List (String × Json) → String → Json → List (String × Json)
  | [], k, v => [(k, v)]
  | (k2, v2) :: rest, k, v =>
    if k2 = k then (k2, v) :: rest else (k2, v2) :: pyObjInsert rest k v

/-- Rebuild the pair list of a parsed JSON object the way the Python reader
builds its dict: inserting left to right, so a repeated key keeps its first
position and its last value. -/
def dedupePairs (ps : List (String × Json)) : List (String × Json) :=
  ps.foldl (fun d kv => pyObjInsert d kv.1 kv.2) []

mutual

/-- One JSON value starting at the given input (leading whitespace
allowed), with the remaining input. -/
def parseJsonValue : Nat → List Char → Option (Json × List Char)
  | 0, _ => none
  | fuel + 1, cs =>
    match skipJsonWs cs with
    | [] => none
    | c :: cs1 =>
      if c = 'n' then
        match cs1 with
        | 'u' :: 'l' :: 'l' :: r => some (Json.null, r)
        | _ => none
      else if c = 't' then
        match cs1 with
        | 'r' :: 'u' :: 'e' :: r => some (Json.bool true, r)
        | _ => none
      else if c = 'f' then
        match cs1 with
        | 'a' :: 'l' :: 's' :: 'e' :: r => some (Json.bool false, r)
        | _ => none
      else if c = 'N' then
        match cs1 with
        | 'a' :: 'N' :: r => some (Json.nan, r)
        | _ => none
      else if c = 'I' then
        match cs1 with
        | 'n' :: 'f' :: 'i' :: 'n' :: 'i' :: 't' :: 'y' :: r => some (Json.infinity false, r)
        | _ => none
      else if c = '"' then
        match parseJsonStringBody (cs1.length + 1) cs1 with
        | some (content, rest) => some (Json.str (String.mk content), rest)
        | none => none
      else if c = '[' then
        match skipJsonWs cs1 with
        | ']' :: r => some (Json.arr [], r)
        | cs2 =>
          match parseJsonArrayItems fuel cs2 with
          | some (vs, r) => some (Json.arr vs, r)
          | none => none
      else if c = '{' then
        match skipJsonWs cs1 with
        | '}' :: r => some (Json.obj [], r)
        | cs2 =>
          match parseJsonObjectItems fuel cs2 with
          | some (kvs, r) => some (Json.obj (dedupePairs kvs), r)
          | none => none
      else if c = '-' then
        match cs1 with
        | 'I' :: 'n' :: 'f' :: 'i' :: 'n' :: 'i' :: 't' :: 'y' :: r => some (Json.infinity true, r)
        | _ => parseJsonNumber (c :: cs1)
      else if c.isDigit then parseJsonNumber (c :: cs1)
      else none

/-- The elements of a non-empty JSON array, up to and including the closing
bracket. -/
def parseJsonArrayItems : Nat → List Char → Option (List Json × List Char)
  | 0, _ => none
  | fuel + 1, cs =>
    match parseJsonValue fuel cs with
    | none => none
    | some (v, rest) =>
      match skipJsonWs rest with
      | ',' :: r2 =>
        match parseJsonArrayItems fuel r2 with
        | some (vs, r3) => some (v :: vs, r3)
        | none => none
      | ']' :: r2 => some ([v], r2)
      | _ => none

/-- The members of a non-empty JSON object, up to and including the closing
brace. -/
def parseJsonObjectItems : Nat → List Char → Option (List (String × Json) × List Char)
  | 0, _ => none
  | fuel + 1, cs =>
    match skipJsonWs cs with
    | '"' :: cs1 =>
      match parseJsonStringBody (cs1.length + 1) cs1 with
      | none => none
      | some (key, rest) =>
        match skipJsonWs rest with
        | ':' :: r2 =>
          match parseJsonValue fuel r2 with
          | none => none
          | some (v, r3) =>
            match skipJsonWs r3 with
            | ',' :: r4 =>
              match parseJsonObjectItems fuel r4 with
              | some (kvs, r5) => some ((String.mk key, v) :: kvs, r5)
              | none => none
            | '}' :: r4 => some ([(String.mk key, v)], r4)
            | _ => none
        | _ => none
    | _ => none

end

/-- Model of the Python `json.loads`: parse one JSON document with
surrounding whitespace allowed and no trailing content, returning `none`
exactly where the Python reader raises a `JSONDecodeError`. -/
def jsonLoads (cs : List Char) : Option Json :=
  match parseJsonValue (2 * cs.length + 2) cs with
  | none => none
  | some (v, rest) => if skipJsonWs rest = [] then some v else none

/-- The completion oracle as the specialized agents see it: a deterministic
function from prompt to generated text, `none` modelling a failure of the
external service (an exception raised by the client call, which the agents
do not catch). -/
def Oracle : Type := String → Option String

/-- Embedding of `SummarizerAgent.run` (src/main.py lines 70-84): empty or absent text
short-circuits to an empty summary with no oracle call; otherwise one oracle
call whose stripped response becomes the summary. The second component
counts the oracle calls made. -/
def summarizerRun (oracle : Oracle) (name : String) (params : Json) :
    Except PyErr Json × Nat :=
  match pyGetD params "text" (Json.str "") with
  | Except.error e => (Except.error e, 0)
  | Except.ok text =>
    if pyTruthy text then
      match oracle ("Provide a concise summary for the following text:\n\n" ++ pyStr text) with
      | none => (Except.error PyErr.oracleError, 1)
      | some response =>
        (Except.ok (Json.obj [("agent", Json.str name), ("action", Json.str "summarize"),
          ("summary", Json.str (pyStrip response))]), 1)
    else
      (Except.ok (Json.obj [("agent", Json.str name), ("action", Json.str "summarize"),
        ("summary", Json.str "")]), 0)

/-- The post-processing the entity extractor applies to the oracle response
(src/main.py lines 102-103): strip the response, split it on commas, strip
each fragment, keep the non-empty fragments in order. -/
def entitiesOfResponse (content : String) : List String :=
  ((pySplit ',' (pyStrip content)).map pyStrip).filter (fun e => e ≠ "")

/-- Embedding of `EntityExtractorAgent.run` (src/main.py lines 88-106). -/
def entityExtractorRun (oracle : Oracle) (name : String) (params : Json) :
    Except PyErr Json × Nat :=
  match pyGetD params "text" (Json.str "") with
  | Except.error e => (Except.error e, 0)
  | Except.ok text =>
    if pyTruthy text then
      match oracle ("Extract named entities (persons, locations, organizations) from the following text:\n\n"
          ++ pyStr text ++ "\n\nReturn only the entities separated by commas.") with
      | none => (Except.error PyErr.oracleError, 1)
      | some response =>
        (Except.ok (Json.obj [("agent", Json.str name), ("action", Json.str "entity_extraction"),
          ("entities", Json.arr ((entitiesOfResponse response).map Json.str))]), 1)
    else
      (Except.ok (Json.obj [("agent", Json.str name), ("action", Json.str "entity_extraction"),
        ("entities", Json.arr [])]), 0)

/-- Embedding of `TranslatorAgent.run` (src/main.py lines 110-125): the target language
is read (defaulting to "en") before the emptiness check on the text. -/
def translatorRun (oracle : Oracle) (name : String) (params : Json) :
    Except PyErr Json × Nat :=
  match pyGetD params "text" (Json.str "") with
  | Except.error e => (Except.error e, 0)
  | Except.ok text =>
    match pyGetD params "target_language" (Json.str "en") with
    | Except.error e => (Except.error e, 0)
    | Except.ok targetLanguage =>
      if pyTruthy text then
        match oracle ("Translate the following text into " ++ pyStr targetLanguage ++ ":\n\n"
            ++ pyStr text) with
        | none => (Except.error PyErr.oracleError, 1)
        | some response =>
          (Except.ok (Json.obj [("agent", Json.str name), ("action", Json.str "translate"),
            ("translated_text", Json.str (pyStrip response))]), 1)
      else
        (Except.ok (Json.obj [("agent", Json.str name), ("action", Json.str "translate"),
          ("translated_text", Json.str "")]), 0)

/-- Coercion of a slice bound to an integer, as Python list slicing
performs it: integers and booleans are accepted, anything else raises
`typeError`. -/
def pyIndex : Json → Except PyErr Int
  | Json.num n => Except.ok n
  | Json.bool b => Except.ok (if b then 1 else 0)
  | _ => Except.error PyErr.typeError

/-- Python `xs[:k]`: a non-negative bound keeps the first `k` elements, a
negative bound drops the last `-k`. -/
def pySliceTo (k : Int) (xs : List Json) : List Json :=
  if 0 ≤ k then xs.take k.toNat else xs.take ((xs.length : Int) + k).toNat

/-- One processed search result entry built by
`InternetSearchAgent.process_results`: the `.get` calls return `None`
(modelled `Json.null`) for absent keys. -/
def searchItemEntry (item : Json) : Except PyErr Json :=
  match pyGetOpt item "title" with
  | Except.error e => Except.error e
  | Except.ok title =>
    match pyGetOpt item "link" with
    | Except.error e => Except.error e
    | Except.ok link =>
      match pyGetOpt item "snippet" with
      | Except.error e => Except.error e
      | Except.ok snippet =>
        Except.ok (Json.obj [("title", title.getD Json.null), ("url", link.getD Json.null),
          ("snippet", snippet.getD Json.null)])

/-- The processing loop of `InternetSearchAgent.process_results`. -/
def searchItemsList : List Json → Except PyErr (List Json)
  | [] => Except.ok []
  | item :: items =>
    match searchItemEntry item with
    | Except.error e => Except.error e
    | Except.ok entry =>
      match searchItemsList items with
      | Except.error e => Except.error e
      | Except.ok entries => Except.ok (entry :: entries)

/-- Embedding of `InternetSearchAgent.process_results` (src/main.py lines 58-66). -/
def processResults (name : String) (data : Json) : Except PyErr Json :=
  match pyGetD data "items" (Json.arr []) with
  | Except.error e => Except.error e
  | Except.ok itemsJ =>
    match pyIter itemsJ with
    | Except.error e => Except.error e
    | Except.ok items =>
      match searchItemsList items with
      | Except.error e => Except.error e
      | Except.ok processed =>
        Except.ok (Json.obj [("agent", Json.str name), ("action", Json.str "search_internet"),
          ("results", Json.arr processed)])

/-- Embedding of `InternetSearchAgent.run` (src/main.py lines 30-56): a simulated
two-entry result set sliced to `max_results` (default 5). No oracle call is
ever made, so the call counter is the constant 0. -/
def searchInternetRun (name : String) (params : Json) : Except PyErr Json × Nat :=
  match pyGetOpt params "keywords" with
  | Except.error e => (Except.error e, 0)
  | Except.ok keywords =>
    match pyGetD params "max_results" (Json.num 5) with
    | Except.error e => (Except.error e, 0)
    | Except.ok maxResults =>
      match pyIndex maxResults with
      | Except.error e => (Except.error e, 0)
      | Except.ok k =>
        let kw := pyStrOpt keywords
        let items : List Json :=
          [Json.obj [("title", Json.str ("Sample Article about " ++ kw)),
             ("link", Json.str "https://example.com/article1"),
             ("snippet", Json.str "This is a simulated snippet for article 1.")],
           Json.obj [("title", Json.str ("Another Resource on " ++ kw)),
             ("link", Json.str "https://example.com/article2"),
             ("snippet", Json.str "This is a simulated snippet for article 2.")]]
        (processResults name (Json.obj [("items", Json.arr (pySliceTo k items))]), 0)

/-- Embedding of `FinalFormatterAgent.run` (src/main.py lines 130-152). The oracle is
modelled with an explicit state `σ` threaded through calls, standing for
whatever the external client carries between successive invocations; a
deterministic oracle is one whose text output does not depend on that
state. Returns the result, the state after the call, and the number of
oracle calls made. -/
def finalFormatterRun {σ : Type} (oracle : σ → String → Option String × σ) (st : σ)
    (name : String) (params : Json) : Except PyErr Json × σ × Nat :=
  match pyGetOpt params "aggregated" with
  | Except.error e => (Except.error e, st, 0)
  | Except.ok aggregatedOpt =>
    let aggregated := aggregatedOpt.getD Json.null
    if pyTruthy aggregated then
      match oracle st ("Transform the following aggregated JSON result into a clear, well-structured summary in natural language:\n\n"
          ++ jsonDumps 0 aggregated
          ++ "\n\nProvide only the final text summary without additional commentary.") with
      | (none, st2) => (Except.error PyErr.oracleError, st2, 1)
      | (some response, st2) =>
        (Except.ok (Json.obj [("agent", Json.str name), ("action", Json.str "final_format"),
          ("formatted_text", Json.str (pyStrip response))]), st2, 1)
    else
      (Except.ok (Json.obj [("agent", Json.str name), ("action", Json.str "final_format"),
        ("formatted_text", Json.str "No result to format.")]), st, 0)

/-- The instruction the dispatcher sends to the oracle to obtain a plan
(src/main.py lines 178-186), with the registered action names interpolated
the way Python renders a list of strings. -/
def planPrompt (userRequest : String) : String :=
  "Analyze the following request and propose an action plan as a JSON structure using the following strict format:\n\n\x7b\n  \"tasks\": [\n    \x7b \"action\": \"<action_name>\", \"params\": \x7b <parameters> \x7d \x7d,\n    ...\n  ]\n\x7d\n\nActions: ["
    ++ pyQuote ++ "summarize" ++ pyQuote ++ ", " ++ pyQuote ++ "entity_extraction" ++ pyQuote
    ++ ", " ++ pyQuote ++ "translate" ++ pyQuote ++ ", " ++ pyQuote ++ "search_internet"
    ++ pyQuote ++ "]\n\nOnly return the JSON without any additional explanatory text.\n\nRequest to analyze:\n\""
    ++ userRequest ++ "\"\n"

/-- The parsing step of `parse_natural_language_request` applied to the
oracle text response (src/main.py lines 193-200): strip the response, feed
it to the JSON reader, and fall back to the empty plan exactly when the
reader raises. Total: no input makes it throw. -/
def parsePlanText (content : String) : Json :=
  match jsonLoads (pyStrip content).data with
  | some plan => plan
  | none => Json.obj [("tasks", Json.arr [])]

/-- Embedding of `AutonomousDispatcherAgent.parse_natural_language_request`
(src/main.py lines 173-200): one oracle call on the plan prompt, then
`parsePlanText` on its response. An oracle failure propagates (the call is
outside the try block). -/
def parseNaturalLanguageRequest (oracle : Oracle) (userRequest : String) : Except PyErr Json :=
  match oracle (planPrompt userRequest) with
  | none => Except.error PyErr.oracleError
  | some content => Except.ok (parsePlanText content)

/-- The four specialized agents registered in `main()` (src/main.py lines
228-237). -/
inductive AgentKind where
  | summarizer : AgentKind
  | entityExtraction : AgentKind
  | translator : AgentKind
  | searchInternet : AgentKind
deriving DecidableEq, Inhabited

/-- The `name` each agent instance is given in `main()`. -/
def agentName : AgentKind → String
  | AgentKind.summarizer => "summarizer"
  | AgentKind.entityExtraction => "entity_extraction"
  | AgentKind.translator => "translator"
  | AgentKind.searchInternet => "search_internet"

/-- The action each agent serves in the `action_to_agent` registry of
`AutonomousDispatcherAgent.__init__` (src/main.py lines 166-171). -/
def actionName : AgentKind → String
  | AgentKind.summarizer => "summarize"
  | AgentKind.entityExtraction => "entity_extraction"
  | AgentKind.translator => "translate"
  | AgentKind.searchInternet => "search_internet"

/-- Model of `self.action_to_agent.get(action)`: lookup of a task action (the value
of `task.get("action")`, possibly `None`) in the registry built in
`__init__` with the agents of `main()`. Only the four registered action
strings resolve; anything else gives `None` and the task is skipped. -/
def resolveAction : Option Json → Option AgentKind
  | some (Json.str s) =>
    if s = "summarize" then some AgentKind.summarizer
    else if s = "entity_extraction" then some AgentKind.entityExtraction
    else if s = "translate" then some AgentKind.translator
    else if s = "search_internet" then some AgentKind.searchInternet
    else none
  | _ => none

/-- Dispatch of `agent.run(params)` for a resolved agent. -/
def runAgent (oracle : Oracle) : AgentKind → Json → Except PyErr Json × Nat
  | AgentKind.summarizer, p => summarizerRun oracle "summarizer" p
  | AgentKind.entityExtraction, p => entityExtractorRun oracle "entity_extraction" p
  | AgentKind.translator, p => translatorRun oracle "translator" p
  | AgentKind.searchInternet, p => searchInternetRun "search_internet" p

/-- The task loop of `dispatch` (src/main.py lines 209-217): read each
task dict, resolve its action, keep the resolved (agent, params) pairs in
plan order and silently drop tasks with an unknown action (a diagnostic is
printed). A task that is not a dict raises before anything runs. -/
def resolveTasks : List Json → Except PyErr (List (AgentKind × Json))
  | [] => Except.ok []
  | t :: ts =>
    match pyGetOpt t "action" with
    | Except.error e => Except.error e
    | Except.ok action =>
      match pyGetD t "params" (Json.obj []) with
      | Except.error e => Except.error e
      | Except.ok params =>
        match resolveTasks ts with
        | Except.error e => Except.error e
        | Except.ok rest =>
          match resolveAction action with
          | some kind => Except.ok ((kind, params) :: rest)
          | none => Except.ok rest

/-- Model of `await asyncio.gather(*tasks)` (src/main.py line 219): runs every
launched task and yields their results in launch order; if any invocation
raises, the whole join raises and no result list is produced (which
exception value surfaces when several fail is immaterial here; this model
reports the first in launch order). -/
def gatherRuns (oracle : Oracle) : List (AgentKind × Json) → Except PyErr (List Json)
  | [] => Except.ok []
  | (kind, params) :: rest =>
    match (runAgent oracle kind params).1 with
    | Except.error e => Except.error e
    | Except.ok r =>
      match gatherRuns oracle rest with
      | Except.error e => Except.error e
      | Except.ok rs => Except.ok (r :: rs)

/-- Insertion into the Python dict aggregating results, keyed by arbitrary
values: an existing key keeps its position and takes the new value. -/
def aggInsert : List (Json × Json) → Json → Json → List (Json × Json)
  | [], k, v => [(k, v)]
  | (k2, v2) :: rest, k, v =>
    if k2 = k then (k2, v) :: rest else (k2, v2) :: aggInsert rest k v

/-- Lookup in the aggregate dict. -/
def aggFind : List (Json × Json) → Json → Option Json
  | [], _ => none
  | (k2, v) :: rest, k => if k2 = k then some v else aggFind rest k

/-- Field access on a result dict, as used by the aggregation
comprehension; results produced by `runAgent` are always dicts. -/
def jsonGetField (j : Json) (k : String) : Option Json :=
  match j with
  | Json.obj kvs => assocFind kvs k
  | _ => none

/-- The aggregation `{result["action"]: result for result in results_list
if "action" in result}` (src/main.py line 221): fold over the gathered
results in launch order, keying each by its `action` field. -/
def buildAggregate (rs : List Json) : List (Json × Json) :=
  rs.foldl (fun d r =>
    match jsonGetField r "action" with
    | some k => aggInsert d k r
    | none => d) []

/-- The dispatch pipeline downstream of plan parsing: resolve the task
dicts, join on all launched runs, aggregate by action. -/
def dispatchTasks (oracle : Oracle) (items : List Json) : Except PyErr (List (Json × Json)) :=
  match resolveTasks items with
  | Except.error e => Except.error e
  | Except.ok pairs =>
    match gatherRuns oracle pairs with
    | Except.error e => Except.error e
    | Except.ok results => Except.ok (buildAggregate results)

/-- Embedding of `AutonomousDispatcherAgent.dispatch` (src/main.py lines 202-222).
`_completionTimes` assigns each launched task the time at which its
concurrent run completes; the join point awaits all tasks and receives
their results in launch order, so nothing downstream depends on these
times — which is the fact the aggregation claims below are about. -/
def dispatch (oracle : Oracle) (_completionTimes : Nat → Nat) (userRequest : String) :
    Except PyErr (List (Json × Json)) :=
  match parseNaturalLanguageRequest oracle userRequest with
  | Except.error e => Except.error e
  | Except.ok plan =>
    match pyGetD plan "tasks" (Json.arr []) with
    | Except.error e => Except.error e
    | Except.ok tasksJ =>
      match pyIter tasksJ with
      | Except.error e => Except.error e
      | Except.ok items => dispatchTasks oracle items

/-- Helper for reasoning about `pySplitChars` of a list extended on the
right: append a character to the last fragment. -/
def appendToLast (x : Char) : List (List Char) → List (List Char)
  | [] => [[x]]
  | [f] => [f ++ [x]]
  | f :: g :: L => f :: appendToLast x (g :: L)

/-- The entity post-processing in the words of the specification: the
oracle response split on commas, each fragment stripped, empty fragments
discarded, order preserved. Stated for comparison with
`entitiesOfResponse`, which is the translation of the code. -/
def entitiesPerClaim (content : String) : List String :=
  ((pySplit ',' content).map pyStrip).filter (fun e => e ≠ "")

/-- The Task shape of the specification: an object with a string `action`
and an object `params`. -/
def isTaskShape : Json → Bool
  | Json.obj kvs =>
    (match assocFind kvs "action" with
     | some (Json.str _) => true
     | _ => false) &&
    (match assocFind kvs "params" with
     | some (Json.obj _) => true
     | _ => false)
  | _ => false

/-- The Plan shape of the specification: an object whose `tasks` member is
an array of Task-shaped objects. -/
def isPlanShape : Json → Bool
  | Json.obj kvs =>
    match assocFind kvs "tasks" with
    | some (Json.arr ts) => ts.all isTaskShape
    | _ => false
  | _ => false

/-- The empty plan the parser falls back to. -/
def emptyPlan : Json := Json.obj [("tasks", Json.arr [])]

/-- The summarizer prompt for a given text parameter, for building
concrete oracles. -/
def summaryPromptFor (t : String) : String :=
  "Provide a concise summary for the following text:\n\n" ++ t

/-- A plan with two summarize tasks over different texts, as JSON text. -/
def planTextTwoSummaries : String :=
  "\x7b\"tasks\": [\x7b\"action\": \"summarize\", \"params\": \x7b\"text\": \"a\"\x7d\x7d, \x7b\"action\": \"summarize\", \"params\": \x7b\"text\": \"b\"\x7d\x7d]\x7d"

/-- A deterministic oracle: answers the plan prompt with
`planTextTwoSummaries` and gives distinct summaries for the two texts. -/
def oracleTwoSummaries : Oracle := fun p =>
  if p = summaryPromptFor "a" then some "SA"
  else if p = summaryPromptFor "b" then some "SB"
  else some planTextTwoSummaries

/-- A completion schedule under which the first launched task (index 0)
completes after the second: task 0 finishes at time 2, every other at
time 1. -/
def timesTaskZeroLast : Nat → Nat := fun i => if i = 0 then 2 else 1

/-- An oracle that produces a plan with a summarize task and a search
task, but fails when the summarizer invokes it. -/
def oracleSummarizeFails : Oracle := fun p =>
  if p = summaryPromptFor "hi" then none
  else some "\x7b\"tasks\": [\x7b\"action\": \"summarize\", \"params\": \x7b\"text\": \"hi\"\x7d\x7d, \x7b\"action\": \"search_internet\", \"params\": \x7b\"keywords\": \"x\"\x7d\x7d]\x7d"

/-- An oracle that produces a plan whose first task has the unregistered
action `dance` and whose second is a search task. -/
def oracleUnknownAction : Oracle := fun _ =>
  some "\x7b\"tasks\": [\x7b\"action\": \"dance\", \"params\": \x7b\x7d\x7d, \x7b\"action\": \"search_internet\", \"params\": \x7b\"keywords\": \"x\"\x7d\x7d]\x7d"

/-- An oracle that produces a plan with a single search task. -/
def oracleSearchOnly : Oracle := fun _ =>
  some "\x7b\"tasks\": [\x7b\"action\": \"search_internet\", \"params\": \x7b\"keywords\": \"ai\"\x7d\x7d]\x7d"

theorem pySplitChars_ne_nil (sep : Char) (cs : List Char) : pySplitChars sep cs ≠ [] := by
  induction cs with
  | nil => simp [pySplitChars]
  | cons c cs _ =>
    simp only [pySplitChars]
    split
    · simp
    · split <;> simp

theorem pyStripChars_cons_ws (c : Char) (f : List Char) (h : isPySpace c = true) :
    pyStripChars (c :: f) = pyStripChars f := by
  simp [pyStripChars, List.dropWhile_cons, h]

theorem isPySpace_comma : isPySpace ',' = false := by decide

theorem mapStrip_split_dropWhile (cs : List Char) :
    (pySplitChars ',' (cs.dropWhile isPySpace)).map pyStripChars =
      (pySplitChars ',' cs).map pyStripChars := by
  induction cs with
  | nil => rfl
  | cons c cs ih =>
    by_cases h : isPySpace c = true
    · have hc : ¬ c = ',' := by
        intro he
        rw [he, isPySpace_comma] at h
        exact Bool.false_ne_true h
      rw [List.dropWhile_cons, if_pos h, ih]
      rcases hsplit : pySplitChars ',' cs with _ | ⟨f, rest⟩
      · exact absurd hsplit (pySplitChars_ne_nil ',' cs)
      · simp only [pySplitChars, if_neg hc, hsplit, List.map_cons,
          pyStripChars_cons_ws c f h]
    · rw [List.dropWhile_cons, if_neg h]

theorem appendToLast_cons_cons (x : Char) (f g : List Char) (L : List (List Char)) :
    appendToLast x (f :: g :: L) = f :: appendToLast x (g :: L) := rfl

theorem appendToLast_nil_cons (x : Char) (L : List (List Char)) (hL : L ≠ []) :
    appendToLast x ([] :: L) = [] :: appendToLast x L := by
  cases L with
  | nil => exact absurd rfl hL
  | cons g L2 => rfl

theorem pySplitChars_cons_self (sep : Char) (cs : List Char) :
    pySplitChars sep (sep :: cs) = [] :: pySplitChars sep cs := by
  simp [pySplitChars]

theorem pySplitChars_cons_ne (sep c : Char) (h : ¬ c = sep) (cs : List Char) :
    pySplitChars sep (c :: cs) =
      match pySplitChars sep cs with
      | [] => [[c]]
      | f :: rest => (c :: f) :: rest := by
  simp [pySplitChars, h]

theorem pySplitChars_snoc (sep x : Char) (hx : ¬ x = sep) (xs : List Char) :
    pySplitChars sep (xs ++ [x]) = appendToLast x (pySplitChars sep xs) := by
  induction xs with
  | nil =>
    rw [List.nil_append, pySplitChars_cons_ne sep x hx]
    rfl
  | cons a xs ih =>
    by_cases ha : a = sep
    · subst ha
      rw [List.cons_append, pySplitChars_cons_self, pySplitChars_cons_self, ih,
        appendToLast_nil_cons x _ (pySplitChars_ne_nil a xs)]
    · rw [List.cons_append, pySplitChars_cons_ne sep a ha, pySplitChars_cons_ne sep a ha, ih]
      rcases h0 : pySplitChars sep xs with _ | ⟨f0, rest0⟩
      · exact absurd h0 (pySplitChars_ne_nil sep xs)
      · cases rest0 with
        | nil => simp [appendToLast]
        | cons g L => simp [appendToLast]

theorem dropRightWs_snoc_pos (xs : List Char) (x : Char) (h : isPySpace x = true) :
    dropRightWs (xs ++ [x]) = dropRightWs xs := by
  simp [dropRightWs, List.reverse_append, List.dropWhile_cons, h]

theorem dropRightWs_snoc_neg (xs : List Char) (x : Char) (h : ¬ isPySpace x = true) :
    dropRightWs (xs ++ [x]) = xs ++ [x] := by
  simp [dropRightWs, List.reverse_append, List.dropWhile_cons, h]

theorem pyStripChars_snoc_ws (f : List Char) (x : Char) (hx : isPySpace x = true) :
    pyStripChars (f ++ [x]) = pyStripChars f := by
  show dropRightWs (List.dropWhile isPySpace (f ++ [x])) = dropRightWs (List.dropWhile isPySpace f)
  rw [List.dropWhile_append]
  by_cases h : (List.dropWhile isPySpace f).isEmpty = true
  · rw [if_pos h]
    have h2 : List.dropWhile isPySpace f = [] := by
      cases he : List.dropWhile isPySpace f
      · rfl
      · rw [he] at h; simp at h
    rw [h2]
    simp [List.dropWhile_cons, hx, dropRightWs]
  · rw [if_neg h]
    exact dropRightWs_snoc_pos _ x hx

theorem mapStrip_appendToLast (x : Char) (hx : isPySpace x = true) :
    ∀ (L : List (List Char)), L ≠ [] →
      (appendToLast x L).map pyStripChars = L.map pyStripChars := by
  intro L
  induction L with
  | nil => intro h; exact absurd rfl h
  | cons f L ih =>
    intro _
    cases L with
    | nil => simp [appendToLast, pyStripChars_snoc_ws f x hx]
    | cons g L2 =>
      rw [appendToLast_cons_cons]
      simp only [List.map_cons]
      rw [ih (by simp)]
      simp

theorem mapStrip_split_dropRightWs (cs : List Char) :
    (pySplitChars ',' (dropRightWs cs)).map pyStripChars =
      (pySplitChars ',' cs).map pyStripChars := by
  induction cs using List.reverseRecOn with
  | nil => rfl
  | append_singleton xs x ih =>
    by_cases hx : isPySpace x = true
    · have hxc : ¬ x = ',' := by
        intro he; rw [he, isPySpace_comma] at hx; exact Bool.false_ne_true hx
      rw [dropRightWs_snoc_pos xs x hx, ih, pySplitChars_snoc ',' x hxc xs,
        mapStrip_appendToLast x hx _ (pySplitChars_ne_nil ',' xs)]
    · rw [dropRightWs_snoc_neg xs x hx]

theorem mapStrip_split_strip (cs : List Char) :
    (pySplitChars ',' (pyStripChars cs)).map pyStripChars =
      (pySplitChars ',' cs).map pyStripChars := by
  have h1 : pyStripChars cs = dropRightWs (cs.dropWhile isPySpace) := rfl
  rw [h1, mapStrip_split_dropRightWs, mapStrip_split_dropWhile]

theorem mk_eq_empty_iff (cs : List Char) : String.mk cs = "" ↔ cs = [] := by
  constructor
  · intro h
    exact congrArg String.data h
  · intro h; rw [h]

theorem filter_ne_empty_map_mk (l : List (List Char)) :
    (l.map String.mk).filter (fun e => e ≠ "") =
      (l.filter (fun cs => cs ≠ [])).map String.mk := by
  induction l with
  | nil => rfl
  | cons cs l ih =>
    by_cases h : cs = []
    · subst h
      have he : String.mk [] = "" := rfl
      simp only [List.map_cons, List.filter_cons, he]
      simpa using ih
    · have h2 : ¬ String.mk cs = "" := fun he => h ((mk_eq_empty_iff cs).mp he)
      simp only [List.map_cons, List.filter_cons]
      simpa [h, h2] using ih

/-- C7: for every oracle text response to the entity extractor, the
entities list the code computes equals the response split on commas with
each fragment stripped of surrounding whitespace, empty fragments
discarded and the order of the remaining fragments preserved (the
whole-response strip the code performs first changes nothing). -/
theorem C7_entity_postprocessing (content : String) :
    entitiesOfResponse content = entitiesPerClaim content := by
  show (((pySplitChars ',' (pyStripChars content.data)).map String.mk).map pyStrip).filter
      (fun e => e ≠ "") =
    (((pySplitChars ',' content.data).map String.mk).map pyStrip).filter (fun e => e ≠ "")
  rw [List.map_map, List.map_map]
  have hfun : (pyStrip ∘ String.mk) = (String.mk ∘ pyStripChars) := rfl
  rw [hfun, ← List.map_map, ← List.map_map, filter_ne_empty_map_mk, filter_ne_empty_map_mk,
    mapStrip_split_strip]

/-- C5: when the text parameter is absent or empty, the summarizer returns
an empty summary, the entity extractor an empty entity list and the
translator an empty translation, each without raising and with zero calls
to the oracle. -/
theorem C5_degenerate_inputs (oracle : Oracle) (name : String) (kvs : List (String × Json))
    (h : assocFind kvs "text" = none ∨ assocFind kvs "text" = some (Json.str "")) :
    summarizerRun oracle name (Json.obj kvs) =
      (Except.ok (Json.obj [("agent", Json.str name), ("action", Json.str "summarize"),
        ("summary", Json.str "")]), 0) ∧
    entityExtractorRun oracle name (Json.obj kvs) =
      (Except.ok (Json.obj [("agent", Json.str name), ("action", Json.str "entity_extraction"),
        ("entities", Json.arr [])]), 0) ∧
    translatorRun oracle name (Json.obj kvs) =
      (Except.ok (Json.obj [("agent", Json.str name), ("action", Json.str "translate"),
        ("translated_text", Json.str "")]), 0) := by
  have ht : pyTruthy (Json.str "") = false := by decide
  rcases h2 : assocFind kvs "target_language" with _ | v <;>
    rcases h with h | h <;>
      simp [summarizerRun, entityExtractorRun, translatorRun, pyGetD, pyGetOpt, h, h2, ht]

/-- C5 witness: the three degenerate laws at the empty params dict, with
an oracle that would fail if it were ever consulted. -/
theorem C5_degenerate_inputs_witness :
    summarizerRun (fun _ => none) "summarizer" (Json.obj []) =
      (Except.ok (Json.obj [("agent", Json.str "summarizer"), ("action", Json.str "summarize"),
        ("summary", Json.str "")]), 0) ∧
    entityExtractorRun (fun _ => none) "summarizer" (Json.obj []) =
      (Except.ok (Json.obj [("agent", Json.str "summarizer"), ("action", Json.str "entity_extraction"),
        ("entities", Json.arr [])]), 0) ∧
    translatorRun (fun _ => none) "summarizer" (Json.obj []) =
      (Except.ok (Json.obj [("agent", Json.str "summarizer"), ("action", Json.str "translate"),
        ("translated_text", Json.str "")]), 0) :=
  C5_degenerate_inputs (fun _ => none) "summarizer" [] (Or.inl rfl)

/-- C6: with the aggregate member absent or the empty mapping, the final
formatter returns the fixed placeholder text, leaves the oracle state
untouched and makes zero oracle calls. -/
theorem C6_empty_aggregate {σ : Type} (oracle : σ → String → Option String × σ) (st : σ)
    (name : String) (kvs : List (String × Json))
    (h : assocFind kvs "aggregated" = none ∨ assocFind kvs "aggregated" = some (Json.obj [])) :
    finalFormatterRun oracle st name (Json.obj kvs) =
      (Except.ok (Json.obj [("agent", Json.str name), ("action", Json.str "final_format"),
        ("formatted_text", Json.str "No result to format.")]), st, 0) := by
  rcases h with h | h <;> simp [finalFormatterRun, pyGetOpt, h, pyTruthy]

/-- C6 witness: the placeholder at the empty params dict. -/
theorem C6_empty_aggregate_witness :
    finalFormatterRun (fun (n : Nat) p => (some p, n + 1)) 0 "final_formatter" (Json.obj []) =
      (Except.ok (Json.obj [("agent", Json.str "final_formatter"),
        ("action", Json.str "final_format"),
        ("formatted_text", Json.str "No result to format.")]), 0, 0) :=
  C6_empty_aggregate (fun (n : Nat) p => (some p, n + 1)) 0 "final_formatter" [] (Or.inl rfl)

/-- C9: with a deterministic completion oracle (text output independent of
the state the client carries between calls) and a non-empty aggregate, two
invocations of the final formatter with the same aggregate return the same
result, in particular the same formatted text; taking the second state to
be the one the first call left behind gives the successive-invocation
reading. -/
theorem C9_formatter_idempotent {σ : Type} (oracle : σ → String → Option String × σ)
    (hdet : ∀ s1 s2 p, (oracle s1 p).1 = (oracle s2 p).1)
    (st1 st2 : σ) (name : String) (ag : Json) (hag : pyTruthy ag = true) :
    (finalFormatterRun oracle st1 name (Json.obj [("aggregated", ag)])).1 =
      (finalFormatterRun oracle st2 name (Json.obj [("aggregated", ag)])).1 := by
  simp only [finalFormatterRun, pyGetOpt, assocFind, if_pos, Option.getD, hag]
  rcases h1 : oracle st1 ("Transform the following aggregated JSON result into a clear, well-structured summary in natural language:\n\n"
      ++ jsonDumps 0 ag
      ++ "\n\nProvide only the final text summary without additional commentary.") with ⟨o1, t1⟩
  rcases h2 : oracle st2 ("Transform the following aggregated JSON result into a clear, well-structured summary in natural language:\n\n"
      ++ jsonDumps 0 ag
      ++ "\n\nProvide only the final text summary without additional commentary.") with ⟨o2, t2⟩
  have ho : o1 = o2 := by
    have hd := hdet st1 st2 ("Transform the following aggregated JSON result into a clear, well-structured summary in natural language:\n\n"
      ++ jsonDumps 0 ag
      ++ "\n\nProvide only the final text summary without additional commentary.")
    rw [h1, h2] at hd
    exact hd
  subst ho
  cases o1 <;> simp [hag]

/-- C9 witness: an echoing oracle whose state is a call counter, on a
one-entry aggregate; the second invocation starts in the state the first
left behind. -/
theorem C9_formatter_idempotent_witness :
    (finalFormatterRun (fun (n : Nat) p => (some p, n + 1)) 0 "final_formatter"
      (Json.obj [("aggregated", Json.obj [("translate", Json.str "x")])])).1 =
    (finalFormatterRun (fun (n : Nat) p => (some p, n + 1)) 1 "final_formatter"
      (Json.obj [("aggregated", Json.obj [("translate", Json.str "x")])])).1 :=
  C9_formatter_idempotent (fun (n : Nat) p => (some p, n + 1)) (fun _ _ _ => rfl) 0 1
    "final_formatter" (Json.obj [("translate", Json.str "x")]) (by decide)

/-- C8 as stated is false at a negative bound: with max_results = -1 the
web-search provider returns a one-entry results list (Python slicing with
a negative bound drops from the end), and 1 is not at most -1. The
zero-oracle-calls half does hold, as the 0 in the returned pair records. -/
theorem C8_counterexample :
    searchInternetRun "search_internet" (Json.obj [("max_results", Json.num (-1))]) =
      (Except.ok (Json.obj [("agent", Json.str "search_internet"),
        ("action", Json.str "search_internet"),
        ("results", Json.arr [Json.obj [("title", Json.str "Sample Article about None"),
          ("url", Json.str "https://example.com/article1"),
          ("snippet", Json.str "This is a simulated snippet for article 1.")]])]), 0) ∧
    ¬ (([Json.obj [("title", Json.str "Sample Article about None"),
          ("url", Json.str "https://example.com/article1"),
          ("snippet", Json.str "This is a simulated snippet for article 1.")]].length : Int) ≤ -1) :=
  ⟨rfl, by decide⟩

/-- C8 amended: for every invocation whose params dict has max_results
absent (bound 5) or equal to a non-negative integer, the provider makes
zero oracle calls and returns a results list of length at most that
bound. -/
theorem C8_amended (kvs : List (String × Json)) (bound : Int)
    (h : (assocFind kvs "max_results" = none ∧ bound = 5) ∨
         (assocFind kvs "max_results" = some (Json.num bound) ∧ 0 ≤ bound)) :
    ∃ r rs, searchInternetRun "search_internet" (Json.obj kvs) = (Except.ok r, 0) ∧
      jsonGetField r "results" = some (Json.arr rs) ∧ (rs.length : Int) ≤ bound := by
  have hb : 0 ≤ bound := by
    rcases h with ⟨_, rfl⟩ | ⟨_, hb⟩
    · decide
    · exact hb
  have hmr : pyGetD (Json.obj kvs) "max_results" (Json.num 5) = Except.ok (Json.num bound) := by
    rcases h with ⟨hfind, rfl⟩ | ⟨hfind, _⟩ <;> simp [pyGetD, pyGetOpt, hfind]
  simp only [searchInternetRun, pyGetOpt, hmr, pyIndex, pySliceTo, if_pos hb]
  have hcast := Int.toNat_of_nonneg hb
  rcases hnat : bound.toNat with _ | n1
  · refine ⟨Json.obj [("agent", Json.str "search_internet"),
      ("action", Json.str "search_internet"), ("results", Json.arr [])], [], rfl, rfl, ?_⟩
    simpa using hb
  · rcases n1 with _ | m
    · refine ⟨Json.obj [("agent", Json.str "search_internet"),
        ("action", Json.str "search_internet"), ("results", Json.arr
          [Json.obj [("title",
              Json.str ("Sample Article about " ++ pyStrOpt (assocFind kvs "keywords"))),
            ("url", Json.str "https://example.com/article1"),
            ("snippet", Json.str "This is a simulated snippet for article 1.")]])],
        [Json.obj [("title",
            Json.str ("Sample Article about " ++ pyStrOpt (assocFind kvs "keywords"))),
          ("url", Json.str "https://example.com/article1"),
          ("snippet", Json.str "This is a simulated snippet for article 1.")]],
        rfl, rfl, ?_⟩
      rw [hnat] at hcast
      simp only [List.length_cons, List.length_nil]
      omega
    · simp only [List.take_succ_cons, List.take_nil]
      refine ⟨Json.obj [("agent", Json.str "search_internet"),
        ("action", Json.str "search_internet"), ("results", Json.arr
          [Json.obj [("title",
              Json.str ("Sample Article about " ++ pyStrOpt (assocFind kvs "keywords"))),
            ("url", Json.str "https://example.com/article1"),
            ("snippet", Json.str "This is a simulated snippet for article 1.")],
           Json.obj [("title",
              Json.str ("Another Resource on " ++ pyStrOpt (assocFind kvs "keywords"))),
            ("url", Json.str "https://example.com/article2"),
            ("snippet", Json.str "This is a simulated snippet for article 2.")]])],
        [Json.obj [("title",
            Json.str ("Sample Article about " ++ pyStrOpt (assocFind kvs "keywords"))),
          ("url", Json.str "https://example.com/article1"),
          ("snippet", Json.str "This is a simulated snippet for article 1.")],
         Json.obj [("title",
            Json.str ("Another Resource on " ++ pyStrOpt (assocFind kvs "keywords"))),
          ("url", Json.str "https://example.com/article2"),
          ("snippet", Json.str "This is a simulated snippet for article 2.")]],
        rfl, rfl, ?_⟩
      rw [hnat] at hcast
      simp only [List.length_cons, List.length_nil]
      omega

/-- C8 amended witness: max_results = 2 keeps both simulated entries. -/
theorem C8_amended_witness :
    ∃ r rs, searchInternetRun "search_internet" (Json.obj [("max_results", Json.num 2)]) =
      (Except.ok r, 0) ∧
      jsonGetField r "results" = some (Json.arr rs) ∧ (rs.length : Int) ≤ 2 :=
  C8_amended [("max_results", Json.num 2)] 2 (Or.inr ⟨rfl, by decide⟩)

/-- C1 as stated is false: the oracle response "[]" decodes as JSON whose
root is not an object, so it is not the Plan shape, yet the parser returns
it unchanged instead of the empty plan; only a JSON decoding failure is
caught. (Dispatch then fails on such a plan at `plan.get`.) -/
theorem C1_counterexample :
    parsePlanText "[]" = Json.arr [] ∧ isPlanShape (Json.arr []) = false ∧
      parsePlanText "[]" ≠ emptyPlan := by
  decide

/-- C1 amended: the fallback to the empty plan happens exactly on JSON
decoding failure (malformed text); `parsePlanText` is total, so no
response makes the parse step throw. -/
theorem C1_amended (content : String) (h : jsonLoads (pyStrip content).data = none) :
    parsePlanText content = emptyPlan := by
  simp [parsePlanText, h, emptyPlan]

/-- C1 amended witness: a response that is not JSON at all. -/
theorem C1_amended_witness : parsePlanText "not json" = emptyPlan :=
  C1_amended "not json" (by decide)

/-- The action names the registry can route to, as aggregate keys. -/
def registeredKeys : List Json :=
  [Json.str "summarize", Json.str "entity_extraction", Json.str "translate",
   Json.str "search_internet"]

/-- Every successful provider invocation returns a dict whose action field
is the fixed action of its agent and which carries an agent field. -/
theorem runAgent_ok_shape (oracle : Oracle) (k : AgentKind) (p r : Json)
    (h : (runAgent oracle k p).1 = Except.ok r) :
    jsonGetField r "action" = some (Json.str (actionName k)) ∧
      (jsonGetField r "agent").isSome = true := by
  rcases hfull : runAgent oracle k p with ⟨res, n⟩
  rw [hfull] at h
  replace h : res = Except.ok r := h
  subst h
  cases k <;>
    (simp only [runAgent, summarizerRun, entityExtractorRun, translatorRun,
       searchInternetRun, processResults] at hfull
     repeat' split at hfull
     all_goals first
       | (injection hfull with h1 h2
          injection h1 with h3
          subst h3
          exact ⟨rfl, rfl⟩)
       | simp at hfull)

/-- The fixed action of every agent is a registered key. -/
theorem actionName_mem_registeredKeys (k : AgentKind) :
    Json.str (actionName k) ∈ registeredKeys := by
  cases k <;> simp [actionName, registeredKeys]

/-- Entries of the dict after an insertion: an old entry or the new pair. -/
theorem mem_aggInsert (d : List (Json × Json)) (k v : Json) (kv : Json × Json)
    (h : kv ∈ aggInsert d k v) : kv ∈ d ∨ kv = (k, v) := by
  induction d with
  | nil => simpa [aggInsert] using h
  | cons hd tl ih =>
    rcases hd with ⟨k2, v2⟩
    simp only [aggInsert] at h
    by_cases he : k2 = k
    · rw [if_pos he] at h
      rcases List.mem_cons.mp h with h1 | h1
      · exact Or.inr (by rw [h1, he])
      · exact Or.inl (List.mem_cons_of_mem _ h1)
    · rw [if_neg he] at h
      rcases List.mem_cons.mp h with h1 | h1
      · exact Or.inl (h1 ▸ List.mem_cons_self _ _)
      · rcases ih h1 with h2 | h2
        · exact Or.inl (List.mem_cons_of_mem _ h2)
        · exact Or.inr h2

/-- Entries of the aggregation fold over `rs` starting from `d`: an entry
of `d` or a gathered result keyed by its own action field. -/
theorem mem_buildAggregate_fold (rs : List Json) :
    ∀ (d : List (Json × Json)) (kv : Json × Json),
      kv ∈ rs.foldl (fun d r =>
        match jsonGetField r "action" with
        | some k => aggInsert d k r
        | none => d) d →
      kv ∈ d ∨ ∃ r ∈ rs, jsonGetField r "action" = some kv.1 ∧ kv.2 = r := by
  induction rs with
  | nil => intro d kv h; exact Or.inl h
  | cons r rs ih =>
    intro d kv h
    simp only [List.foldl_cons] at h
    rcases hk : jsonGetField r "action" with _ | k
    · rw [hk] at h
      rcases ih _ kv h with h1 | ⟨r2, hr2, hf, hv⟩
      · exact Or.inl h1
      · exact Or.inr ⟨r2, List.mem_cons_of_mem _ hr2, hf, hv⟩
    · rw [hk] at h
      rcases ih _ kv h with h1 | ⟨r2, hr2, hf, hv⟩
      · rcases mem_aggInsert d k r kv h1 with h2 | h2
        · exact Or.inl h2
        · refine Or.inr ⟨r, List.mem_cons_self _ _, ?_, ?_⟩
          · rw [h2]; simpa using hk
          · simp [h2]
      · exact Or.inr ⟨r2, List.mem_cons_of_mem _ hr2, hf, hv⟩

/-- Every entry of the built aggregate is a gathered result keyed by its
own action field. -/
theorem mem_buildAggregate (rs : List Json) (kv : Json × Json)
    (h : kv ∈ buildAggregate rs) :
    ∃ r ∈ rs, jsonGetField r "action" = some kv.1 ∧ kv.2 = r := by
  rcases mem_buildAggregate_fold rs [] kv h with h1 | h1
  · simp at h1
  · exact h1

/-- Every gathered result is a successful run of one of the resolved
pairs. -/
theorem gatherRuns_ok_mem (oracle : Oracle) (pairs : List (AgentKind × Json))
    (results : List Json) (h : gatherRuns oracle pairs = Except.ok results) :
    ∀ r ∈ results, ∃ kp ∈ pairs, (runAgent oracle kp.1 kp.2).1 = Except.ok r := by
  induction pairs generalizing results with
  | nil =>
    simp only [gatherRuns] at h
    cases h
    intro r hr
    simp at hr
  | cons kp rest ih =>
    rcases kp with ⟨k, p⟩
    simp only [gatherRuns] at h
    rcases hrun : (runAgent oracle k p).1 with e | r0
    · rw [hrun] at h; cases h
    · rw [hrun] at h
      rcases hg : gatherRuns oracle rest with e | rs0
      · rw [hg] at h; cases h
      · rw [hg] at h
        cases h
        intro r hr
        rcases List.mem_cons.mp hr with h1 | h1
        · exact ⟨(k, p), List.mem_cons_self _ _, h1 ▸ hrun⟩
        · rcases ih rs0 hg r h1 with ⟨kp2, hkp2, hrun2⟩
          exact ⟨kp2, List.mem_cons_of_mem _ hkp2, hrun2⟩

/-- If some resolved invocation fails, the join fails. -/
theorem gatherRuns_error (oracle : Oracle) (pairs : List (AgentKind × Json))
    (h : ∃ kp ∈ pairs, ∃ e, (runAgent oracle kp.1 kp.2).1 = Except.error e) :
    ∃ e2, gatherRuns oracle pairs = Except.error e2 := by
  induction pairs with
  | nil => simp at h
  | cons kp rest ih =>
    rcases kp with ⟨k, p⟩
    rcases h with ⟨kp2, hmem, e, herr⟩
    rcases List.mem_cons.mp hmem with h1 | h1
    · subst h1
      refine ⟨e, ?_⟩
      simp only [gatherRuns, herr]
    · rcases ih ⟨kp2, h1, e, herr⟩ with ⟨e2, hg⟩
      rcases hrun : (runAgent oracle k p).1 with e3 | r0
      · exact ⟨e3, by simp only [gatherRuns, hrun]⟩
      · exact ⟨e2, by simp only [gatherRuns, hrun, hg]⟩

/-- Every entry of an aggregate produced by a successful dispatch loop is
keyed by its own action field, carries an agent field, and its key is a
registered action name. -/
theorem dispatchTasks_ok_invariant (oracle : Oracle) (items : List Json)
    (agg : List (Json × Json)) (h : dispatchTasks oracle items = Except.ok agg) :
    ∀ kv ∈ agg, jsonGetField kv.2 "action" = some kv.1 ∧
      (jsonGetField kv.2 "agent").isSome = true ∧ kv.1 ∈ registeredKeys := by
  unfold dispatchTasks at h
  split at h
  · cases h
  next pairs hres =>
    split at h
    · cases h
    next results hg =>
      injection h with h
      subst h
      intro kv hkv
      rcases mem_buildAggregate results kv hkv with ⟨r, hrmem, hf, hv⟩
      rcases gatherRuns_ok_mem oracle pairs results hg r hrmem with ⟨kp, -, hrun⟩
      rcases runAgent_ok_shape oracle kp.1 kp.2 r hrun with ⟨ha, hag⟩
      have hkey : kv.1 = Json.str (actionName kp.1) :=
        Option.some.inj (hf.symm.trans ha)
      refine ⟨?_, ?_, ?_⟩
      · rw [hv]; exact hf
      · rw [hv]; exact hag
      · rw [hkey]; exact actionName_mem_registeredKeys kp.1

/-- C10: every aggregate a dispatch cycle returns maps each key to a
result dict whose action field equals that key, every value carries an
agent field, and every key is one of the four registered action names. -/
theorem C10_aggregate_invariant (oracle : Oracle) (times : Nat → Nat) (req : String)
    (agg : List (Json × Json)) (h : dispatch oracle times req = Except.ok agg) :
    ∀ kv ∈ agg, jsonGetField kv.2 "action" = some kv.1 ∧
      (jsonGetField kv.2 "agent").isSome = true ∧ kv.1 ∈ registeredKeys := by
  unfold dispatch at h
  split at h
  · cases h
  next plan hplan =>
    split at h
    · cases h
    next tasksJ htasks =>
      split at h
      · cases h
      next items hitems =>
        exact dispatchTasks_ok_invariant oracle items agg h

/-- C10 witness: a full dispatch cycle over a one-task search plan,
evaluated to its concrete one-entry aggregate, at that entry. -/
theorem C10_aggregate_invariant_witness :
    jsonGetField (Json.obj [("agent", Json.str "search_internet"),
        ("action", Json.str "search_internet"),
        ("results", Json.arr
          [Json.obj [("title", Json.str "Sample Article about ai"),
            ("url", Json.str "https://example.com/article1"),
            ("snippet", Json.str "This is a simulated snippet for article 1.")],
           Json.obj [("title", Json.str "Another Resource on ai"),
            ("url", Json.str "https://example.com/article2"),
            ("snippet", Json.str "This is a simulated snippet for article 2.")]])])
        "action" = some (Json.str "search_internet") ∧
      (jsonGetField (Json.obj [("agent", Json.str "search_internet"),
        ("action", Json.str "search_internet"),
        ("results", Json.arr
          [Json.obj [("title", Json.str "Sample Article about ai"),
            ("url", Json.str "https://example.com/article1"),
            ("snippet", Json.str "This is a simulated snippet for article 1.")],
           Json.obj [("title", Json.str "Another Resource on ai"),
            ("url", Json.str "https://example.com/article2"),
            ("snippet", Json.str "This is a simulated snippet for article 2.")]])])
        "agent").isSome = true ∧
      Json.str "search_internet" ∈ registeredKeys :=
  C10_aggregate_invariant oracleSearchOnly (fun _ => 0) "req" _ rfl
    ((Json.str "search_internet"),
      Json.obj [("agent", Json.str "search_internet"),
        ("action", Json.str "search_internet"),
        ("results", Json.arr
          [Json.obj [("title", Json.str "Sample Article about ai"),
            ("url", Json.str "https://example.com/article1"),
            ("snippet", Json.str "This is a simulated snippet for article 1.")],
           Json.obj [("title", Json.str "Another Resource on ai"),
            ("url", Json.str "https://example.com/article2"),
            ("snippet", Json.str "This is a simulated snippet for article 2.")]])])
    (List.mem_cons_self _ _)

/-- C3: when at least one resolved provider invocation raises, the whole
dispatch cycle raises at the join point and no aggregate, complete or
incomplete, is returned. -/
theorem C3_error_aborts (oracle : Oracle) (times : Nat → Nat) (req : String)
    (plan tasksJ : Json) (items : List Json) (pairs : List (AgentKind × Json))
    (h1 : parseNaturalLanguageRequest oracle req = Except.ok plan)
    (h2 : pyGetD plan "tasks" (Json.arr []) = Except.ok tasksJ)
    (h3 : pyIter tasksJ = Except.ok items)
    (h4 : resolveTasks items = Except.ok pairs)
    (h5 : ∃ kp ∈ pairs, ∃ e, (runAgent oracle kp.1 kp.2).1 = Except.error e) :
    ∃ e2, dispatch oracle times req = Except.error e2 := by
  rcases gatherRuns_error oracle pairs h5 with ⟨e2, hg⟩
  refine ⟨e2, ?_⟩
  unfold dispatch dispatchTasks
  simp only [h1, h2, h3, h4, hg]

set_option maxRecDepth 100000 in
/-- C3 witness: a plan with a summarize task and a search task where the
oracle fails on the summarizer prompt; the search task alone would have
succeeded, yet dispatch returns no aggregate. -/
theorem C3_error_aborts_witness :
    ∃ e2, dispatch oracleSummarizeFails (fun _ => 0) "req" = Except.error e2 :=
  C3_error_aborts oracleSummarizeFails (fun _ => 0) "req"
    (Json.obj [("tasks", Json.arr
      [Json.obj [("action", Json.str "summarize"),
        ("params", Json.obj [("text", Json.str "hi")])],
       Json.obj [("action", Json.str "search_internet"),
        ("params", Json.obj [("keywords", Json.str "x")])]])])
    (Json.arr
      [Json.obj [("action", Json.str "summarize"),
        ("params", Json.obj [("text", Json.str "hi")])],
       Json.obj [("action", Json.str "search_internet"),
        ("params", Json.obj [("keywords", Json.str "x")])]])
    [Json.obj [("action", Json.str "summarize"),
       ("params", Json.obj [("text", Json.str "hi")])],
     Json.obj [("action", Json.str "search_internet"),
       ("params", Json.obj [("keywords", Json.str "x")])]]
    [(AgentKind.summarizer, Json.obj [("text", Json.str "hi")]),
     (AgentKind.searchInternet, Json.obj [("keywords", Json.str "x")])]
    rfl rfl rfl rfl
    ⟨(AgentKind.summarizer, Json.obj [("text", Json.str "hi")]),
      List.mem_cons_self _ _, PyErr.oracleError, rfl⟩

/-- The dispatch loop treats a task with an unresolvable action as absent:
resolution of the surrounding plan is unchanged. -/
theorem resolveTasks_skip (L1 : List Json) (tkv : List (String × Json)) (a : Json)
    (L2 : List Json) (ha : assocFind tkv "action" = some a)
    (hres : resolveAction (some a) = none) :
    resolveTasks (L1 ++ Json.obj tkv :: L2) = resolveTasks (L1 ++ L2) := by
  induction L1 with
  | nil =>
    simp only [List.nil_append, resolveTasks, pyGetOpt, ha, pyGetD]
    rcases hp : assocFind tkv "params" with _ | pv <;>
      rcases hL2 : resolveTasks L2 with e | rest <;>
        simp [hres]
  | cons t L1 ih =>
    simp only [List.cons_append, resolveTasks, List.append_eq, ih]

/-- A key different from every key of the dict is not found. -/
theorem aggFind_eq_none (agg : List (Json × Json)) (a : Json)
    (h : ∀ kv ∈ agg, kv.1 ≠ a) : aggFind agg a = none := by
  induction agg with
  | nil => rfl
  | cons kv tl ih =>
    rcases kv with ⟨k2, v⟩
    simp only [aggFind]
    rw [if_neg (h (k2, v) (List.mem_cons_self _ _))]
    exact ih (fun kv2 hkv2 => h kv2 (List.mem_cons_of_mem _ hkv2))

/-- Every registered key resolves to an agent. -/
theorem resolveAction_of_mem_registeredKeys (a : Json) (ha : a ∈ registeredKeys) :
    (resolveAction (some a)).isSome = true := by
  simp only [registeredKeys, List.mem_cons, List.not_mem_nil, or_false] at ha
  rcases ha with rfl | rfl | rfl | rfl <;> rfl

/-- C4: a task whose action has no registered provider is dropped with a
diagnostic: dispatch of the plan with the task behaves exactly as dispatch
of the plan without it, so when the remaining tasks succeed the cycle
completes, they all execute, and the aggregate has no entry under the
unknown action. -/
theorem C4_unknown_action (oracle : Oracle) (L1 L2 : List Json)
    (tkv : List (String × Json)) (a : Json) (agg : List (Json × Json))
    (ha : assocFind tkv "action" = some a)
    (hres : resolveAction (some a) = none)
    (h : dispatchTasks oracle (L1 ++ L2) = Except.ok agg) :
    dispatchTasks oracle (L1 ++ Json.obj tkv :: L2) = Except.ok agg ∧
      aggFind agg a = none := by
  have hskip := resolveTasks_skip L1 tkv a L2 ha hres
  constructor
  · unfold dispatchTasks at h ⊢
    rw [hskip]
    exact h
  · apply aggFind_eq_none
    intro kv hkv he
    have hinv := dispatchTasks_ok_invariant oracle (L1 ++ L2) agg h kv hkv
    have hmem := resolveAction_of_mem_registeredKeys a (he ▸ hinv.2.2)
    rw [hres] at hmem
    simp at hmem

/-- C4 witness: a plan whose first task has the unknown action dance and
whose second is a search task; the cycle completes, the search task still
runs, and the aggregate has no dance entry. -/
theorem C4_unknown_action_witness :
    dispatchTasks oracleTwoSummaries
      [Json.obj [("action", Json.str "dance"), ("params", Json.obj [])],
       Json.obj [("action", Json.str "search_internet"),
         ("params", Json.obj [("keywords", Json.str "x")])]] =
      Except.ok [(Json.str "search_internet",
        Json.obj [("agent", Json.str "search_internet"),
          ("action", Json.str "search_internet"),
          ("results", Json.arr
            [Json.obj [("title", Json.str "Sample Article about x"),
              ("url", Json.str "https://example.com/article1"),
              ("snippet", Json.str "This is a simulated snippet for article 1.")],
             Json.obj [("title", Json.str "Another Resource on x"),
              ("url", Json.str "https://example.com/article2"),
              ("snippet", Json.str "This is a simulated snippet for article 2.")]])])] ∧
      aggFind [(Json.str "search_internet",
        Json.obj [("agent", Json.str "search_internet"),
          ("action", Json.str "search_internet"),
          ("results", Json.arr
            [Json.obj [("title", Json.str "Sample Article about x"),
              ("url", Json.str "https://example.com/article1"),
              ("snippet", Json.str "This is a simulated snippet for article 1.")],
             Json.obj [("title", Json.str "Another Resource on x"),
              ("url", Json.str "https://example.com/article2"),
              ("snippet", Json.str "This is a simulated snippet for article 2.")]])])]
        (Json.str "dance") = none :=
  C4_unknown_action oracleTwoSummaries []
    [Json.obj [("action", Json.str "search_internet"),
      ("params", Json.obj [("keywords", Json.str "x")])]]
    [("action", Json.str "dance"), ("params", Json.obj [])]
    (Json.str "dance") _ rfl rfl rfl

/-- An action string that resolves to an agent is the fixed
action of that agent. -/
theorem resolveAction_actionName (s : String) (k : AgentKind)
    (h : resolveAction (some (Json.str s)) = some k) : actionName k = s := by
  simp only [resolveAction] at h
  repeat' split at h
  all_goals first
    | exact Option.noConfusion h
    | (injection h with h2
       subst h2
       simp_all [actionName])

/-- C2 amended: in a plan with two tasks sharing the same action, the
aggregate has exactly one entry for that action and it is the result of
the task that comes later in plan order: the join returns results in
launch order, so the later launch overwrites, regardless of completion
times. -/
theorem C2_last_in_plan_order_wins (oracle : Oracle) (kv1 kv2 : List (String × Json))
    (s : String) (k : AgentKind) (p1 p2 r1 r2 : Json)
    (ha1 : pyGetOpt (Json.obj kv1) "action" = Except.ok (some (Json.str s)))
    (ha2 : pyGetOpt (Json.obj kv2) "action" = Except.ok (some (Json.str s)))
    (hp1 : pyGetD (Json.obj kv1) "params" (Json.obj []) = Except.ok p1)
    (hp2 : pyGetD (Json.obj kv2) "params" (Json.obj []) = Except.ok p2)
    (hres : resolveAction (some (Json.str s)) = some k)
    (hr1 : (runAgent oracle k p1).1 = Except.ok r1)
    (hr2 : (runAgent oracle k p2).1 = Except.ok r2) :
    dispatchTasks oracle [Json.obj kv1, Json.obj kv2] = Except.ok [(Json.str s, r2)] := by
  have hk1 := (runAgent_ok_shape oracle k p1 r1 hr1).1
  have hk2 := (runAgent_ok_shape oracle k p2 r2 hr2).1
  rw [resolveAction_actionName s k hres] at hk1 hk2
  have hres1 : resolveTasks [Json.obj kv1, Json.obj kv2] = Except.ok [(k, p1), (k, p2)] := by
    simp only [resolveTasks, ha1, ha2, hp1, hp2, hres]
  have hg : gatherRuns oracle [(k, p1), (k, p2)] = Except.ok [r1, r2] := by
    simp only [gatherRuns, hr1, hr2]
  unfold dispatchTasks
  simp only [hres1, hg]
  simp only [buildAggregate, List.foldl_cons, List.foldl_nil, hk1, hk2]
  simp [aggInsert]

/-- C2 amended witness: two summarize tasks over the texts a and b; the
aggregate keeps only the result of the later task (summary SB). -/
theorem C2_last_in_plan_order_wins_witness :
    dispatchTasks oracleTwoSummaries
      [Json.obj [("action", Json.str "summarize"),
        ("params", Json.obj [("text", Json.str "a")])],
       Json.obj [("action", Json.str "summarize"),
        ("params", Json.obj [("text", Json.str "b")])]] =
      Except.ok [(Json.str "summarize",
        Json.obj [("agent", Json.str "summarizer"), ("action", Json.str "summarize"),
          ("summary", Json.str "SB")])] :=
  C2_last_in_plan_order_wins oracleTwoSummaries
    [("action", Json.str "summarize"), ("params", Json.obj [("text", Json.str "a")])]
    [("action", Json.str "summarize"), ("params", Json.obj [("text", Json.str "b")])]
    "summarize" AgentKind.summarizer
    (Json.obj [("text", Json.str "a")]) (Json.obj [("text", Json.str "b")])
    (Json.obj [("agent", Json.str "summarizer"), ("action", Json.str "summarize"),
      ("summary", Json.str "SA")])
    (Json.obj [("agent", Json.str "summarizer"), ("action", Json.str "summarize"),
      ("summary", Json.str "SB")])
    rfl rfl rfl rfl rfl rfl rfl

set_option maxRecDepth 100000 in
/-- C2 as stated is false: under the schedule `timesTaskZeroLast` the task
launched first (summarising a, result summary SA) completes last, yet the
aggregate entry for summarize is the result of the task that is last in
plan order (summary SB), a different result. Last-write-wins is by plan
order, not by completion time: the join returns results in launch order
and the completion times are never consulted. -/
theorem C2_counterexample :
    timesTaskZeroLast 1 < timesTaskZeroLast 0 ∧
    (runAgent oracleTwoSummaries AgentKind.summarizer
        (Json.obj [("text", Json.str "a")])).1 =
      Except.ok (Json.obj [("agent", Json.str "summarizer"), ("action", Json.str "summarize"),
        ("summary", Json.str "SA")]) ∧
    dispatch oracleTwoSummaries timesTaskZeroLast "req" =
      Except.ok [(Json.str "summarize",
        Json.obj [("agent", Json.str "summarizer"), ("action", Json.str "summarize"),
          ("summary", Json.str "SB")])] ∧
    (Json.obj [("agent", Json.str "summarizer"), ("action", Json.str "summarize"),
        ("summary", Json.str "SB")] : Json) ≠
      Json.obj [("agent", Json.str "summarizer"), ("action", Json.str "summarize"),
        ("summary", Json.str "SA")] :=
  ⟨by decide, rfl, rfl, by decide⟩
